import Mathlib

/-!
Shallow embedding of the entrance/exit line-crossing engine
(`app/geometry_utils.py` and `app/services/entrance_exit_engine.py`).

Coordinates and timestamps (Python floats) are modelled as exact rationals
(`Rat`); all inputs appearing in the claims are small exact values, so no
float-rounding behaviour is at issue.  The process-wide mutable dictionaries
(`track_positions`, `track_state`) are modelled as finite maps
`Int → Option _` threaded explicitly through the functions that mutate them.
Python exceptions from the persistence collaborator are modelled with
`Except`; the list component of the engine result records the rows appended
to the database by the call.
-/

attribute [local semireducible] Rat.sub Rat.add Rat.mul Rat.inv

deriving instance DecidableEq for Except

namespace Atriva

/-- A point `{'x': float, 'y': float}`. -/
structure Point where
  x : Rat
  y : Rat
deriving DecidableEq, Repr

/-- A directed line segment `{'x1','y1','x2','y2'}` from `(x1,y1)` to `(x2,y2)`. -/
structure Line where
  x1 : Rat
  y1 : Rat
  x2 : Rat
  y2 : Rat
deriving DecidableEq, Repr

/-- `detect_line_crossing` from `app/geometry_utils.py` (lines 16-81):
cross products of the line direction with the vectors to each point;
product `>= 0` means same side or on the line (no crossing); otherwise
left-to-right is `"OUT"` and right-to-left is `"IN"`. -/
def detect_line_crossing (prev_point curr_point : Point) (line : Line) :
    Option String :=
  let x1 := line.x1; let y1 := line.y1
  let x2 := line.x2; let y2 := line.y2
  let prev_x := prev_point.x; let prev_y := prev_point.y
  let curr_x := curr_point.x; let curr_y := curr_point.y
  let line_dx := x2 - x1
  let line_dy := y2 - y1
  let prev_cross := line_dx * (prev_y - y1) - line_dy * (prev_x - x1)
  let curr_cross := line_dx * (curr_y - y1) - line_dy * (curr_x - x1)
  if prev_cross * curr_cross ≥ 0 then
    none
  else if prev_cross > 0 ∧ curr_cross < 0 then
    some "OUT"
  else if prev_cross < 0 ∧ curr_cross > 0 then
    some "IN"
  else
    none

/-- `get_point_side_of_line` from `app/geometry_utils.py` (lines 84-114):
positive cross product is `"left"`, negative is `"right"`, zero is `None`. -/
def get_point_side_of_line (point : Point) (line : Line) : Option String :=
  let x1 := line.x1; let y1 := line.y1
  let x2 := line.x2; let y2 := line.y2
  let px := point.x; let py := point.y
  let line_dx := x2 - x1
  let line_dy := y2 - y1
  let cross := line_dx * (py - y1) - line_dy * (px - x1)
  if cross > 0 then
    some "left"
  else if cross < 0 then
    some "right"
  else
    none

/-- The 2D cross product `(x2-x1)*(py-y1) - (y2-y1)*(px-x1)` of the line's
direction vector with the vector from the line's first endpoint to the point,
the quantity both geometry primitives branch on. -/
def cross_product (line : Line) (p : Point) : Rat :=
  (line.x2 - line.x1) * (p.y - line.y1) - (line.y2 - line.y1) * (p.x - line.x1)

/-- `MIN_CROSS_INTERVAL` from `app/geometry_utils.py` (line 9). -/
def MIN_CROSS_INTERVAL : Rat := 3

/-- One entry of the `track_state` dict of `app/geometry_utils.py` (line 13):
`{"last_cross_time": float, "last_direction": "IN" | "OUT"}`. -/
structure TrackState where
  last_cross_time : Rat
  last_direction : String
deriving DecidableEq, Repr

/-- The `track_state` dict, keyed by `track_id`. -/
def TrackStateMap : Type := Int → Option TrackState

/-- Python's `str.upper()` restricted to ASCII, which is all the engine ever
passes (`"IN"`/`"OUT"`/`"in"`/`"out"`). -/
def str_upper (s : String) : String := ⟨s.data.map Char.toUpper⟩

/-- `should_count_crossing` from `app/geometry_utils.py` (lines 117-177), with
the mutation of the global `track_state` made explicit: the returned map is
the dict after the call.  `current_time` is always supplied by the engine, so
the `time.time()` default is not modelled. -/
def should_count_crossing (track_id : Int) (direction : String)
    (current_time : Rat) (track_state : TrackStateMap) :
    Bool × TrackStateMap :=
  let direction := str_upper direction
  if ¬ (direction = "IN" ∨ direction = "OUT") then
    (false, track_state)
  else
    match track_state track_id with
    | none =>
      (true, fun t => if t = track_id then
          some ⟨current_time, direction⟩ else track_state t)
    | some state =>
      let last_cross_time := state.last_cross_time
      let last_direction := state.last_direction
      let time_since_last := current_time - last_cross_time
      if time_since_last < MIN_CROSS_INTERVAL then
        (false, track_state)
      else if direction = last_direction then
        (false, track_state)
      else
        (true, fun t => if t = track_id then
            some ⟨current_time, direction⟩ else track_state t)

/-- One entry of the `track_positions` dict of
`app/services/entrance_exit_engine.py` (line 14):
`{'x': float, 'y': float, 'timestamp': float}`. -/
structure TrackPosition where
  x : Rat
  y : Rat
  timestamp : Rat
deriving DecidableEq, Repr

/-- The two process-wide mutable dicts the engine reads and writes:
`track_positions` (engine module, line 14) and `track_state`
(`geometry_utils.py`, line 13). -/
structure EngineState where
  track_positions : Int → Option TrackPosition
  track_state : TrackStateMap

/-- Both dicts start out empty (`{}`) at module load. -/
def emptyEngineState : EngineState := ⟨fun _ => none, fun _ => none⟩

/-- The `event_data` dict handed to the persistence collaborator
(`create_entry_exit_event`, engine lines 107-117): its `timestamp` field is
`datetime.fromtimestamp(timestamp)`, the full-precision instant, modelled as
the exact rational. -/
structure PersistedEvent where
  camera_id : Int
  event : String
  timestamp : Rat
  track_id : Int
deriving DecidableEq, Repr

/-- The dict returned to the caller (engine lines 123-128): its `timestamp`
field is `int(timestamp)`. -/
structure ReturnedEvent where
  camera_id : Int
  event : String
  timestamp : Int
  track_id : Int
deriving DecidableEq, Repr

/-- A failure of the persistence collaborator (an exception raised inside
`create_entry_exit_event`, e.g. `db.commit()` failing). -/
inductive PersistFailure
  | dbError
deriving DecidableEq, Repr

/-- Python `int()` on a float/rational: truncation toward zero
(`int(1.5) = 1`, `int(-1.5) = -1`), i.e. `Int.tdiv` of the numerator by the
(positive) denominator. -/
def py_int (q : Rat) : Int := q.num.tdiv q.den

/-- `process_person_centroid` from `app/services/entrance_exit_engine.py`
(lines 17-128), with the mutable state threaded explicitly.

`persistFails` models the external persistence collaborator
(`create_entry_exit_event`): `false` means the database write succeeds,
`true` means it raises.  The result is the new state of the two dicts, the
list of rows appended to the database by the call, and — as an `Except`,
since a raised exception propagates out of the Python function — the value
returned to the caller (`None` or the event dict).  `camera_id` is threaded
like the Python argument; `timestamp` is always supplied by the caller, so
the `time.time()` default is not modelled. -/
def process_person_centroid
    (persistFails : Bool)
    (camera_id : Int) (track_id : Int)
    (centroid_x : Rat) (centroid_y : Rat)
    (line_config : Line)
    (direction_filter : String)
    (timestamp : Rat)
    (entrance_side_point : Option Point)
    (st : EngineState) :
    EngineState × List PersistedEvent × Except PersistFailure (Option ReturnedEvent) :=
  -- prev_position = track_positions.get(track_id)
  let prev_position := st.track_positions track_id
  -- track_positions[track_id] = {'x': centroid_x, 'y': centroid_y, 'timestamp': timestamp}
  let current_position : TrackPosition := ⟨centroid_x, centroid_y, timestamp⟩
  let st1 : EngineState :=
    ⟨fun t => if t = track_id then some current_position else st.track_positions t,
     st.track_state⟩
  match prev_position with
  | none => (st1, [], Except.ok none)
  | some prev_position =>
    let prev_point : Point := ⟨prev_position.x, prev_position.y⟩
    let curr_point : Point := ⟨centroid_x, centroid_y⟩
    match detect_line_crossing prev_point curr_point line_config with
    | none => (st1, [], Except.ok none)
    | some direction =>
      let event_type :=
        match entrance_side_point with
        | some esp =>
          let prev_side := get_point_side_of_line prev_point line_config
          let entrance_side := get_point_side_of_line esp line_config
          match prev_side, entrance_side with
          | some ps, some es => if ps = es then "enter" else "exit"
          | _, _ => if direction = "IN" then "enter" else "exit"
        | none => if direction = "IN" then "enter" else "exit"
      if direction_filter = "in" ∧ event_type ≠ "enter" then
        (st1, [], Except.ok none)
      else if direction_filter = "out" ∧ event_type ≠ "exit" then
        (st1, [], Except.ok none)
      else
        let scc := should_count_crossing track_id direction timestamp st1.track_state
        let st2 : EngineState := ⟨st1.track_positions, scc.2⟩
        if ¬ scc.1 then
          (st2, [], Except.ok none)
        else
          let event_data : PersistedEvent := ⟨camera_id, event_type, timestamp, track_id⟩
          if persistFails then
            (st2, [], Except.error PersistFailure.dbError)
          else
            (st2, [event_data],
             Except.ok (some ⟨camera_id, event_type, py_int timestamp, track_id⟩))

/-- The line with its two endpoints swapped. -/
def reversed_line (l : Line) : Line := ⟨l.x2, l.y2, l.x1, l.y1⟩

theorem detect_line_crossing_eq (prev curr : Point) (line : Line) :
    detect_line_crossing prev curr line =
      (if cross_product line prev * cross_product line curr ≥ 0 then none
       else if cross_product line prev > 0 ∧ cross_product line curr < 0 then some "OUT"
       else if cross_product line prev < 0 ∧ cross_product line curr > 0 then some "IN"
       else none) := rfl

theorem get_point_side_of_line_eq (p : Point) (line : Line) :
    get_point_side_of_line p line =
      (if cross_product line p > 0 then some "left"
       else if cross_product line p < 0 then some "right"
       else none) := rfl

example : detect_line_crossing ⟨-1, 5⟩ ⟨1, 5⟩ ⟨0, 0, 0, 10⟩ = some "OUT" := by decide
example : get_point_side_of_line ⟨-5, 5⟩ ⟨0, 0, 0, 10⟩ = some "left" := by decide
example : get_point_side_of_line ⟨5, 5⟩ ⟨0, 0, 0, 10⟩ = some "right" := by decide
example : get_point_side_of_line ⟨0, 5⟩ ⟨0, 0, 0, 10⟩ = none := by decide
example :
    (should_count_crossing 7 "IN" 0 (fun _ => none)).1 = true := by decide
example :
    (should_count_crossing 7 "IN" 1
      (should_count_crossing 7 "IN" 0 (fun _ => none)).2).1 = false := by decide
example :
    (should_count_crossing 7 "OUT" 4
      (should_count_crossing 7 "IN" 1
        (should_count_crossing 7 "IN" 0 (fun _ => none)).2).2).1 = true := by decide
example :
    (process_person_centroid false 1 7 (-1) 5 ⟨0, 0, 0, 10⟩ "both" 0 none
      emptyEngineState).2.2 = Except.ok none := by decide
example :
    (process_person_centroid false 1 7 1 5 ⟨0, 0, 0, 10⟩ "both" 1 none
      (process_person_centroid false 1 7 (-1) 5 ⟨0, 0, 0, 10⟩ "both" 0 none
        emptyEngineState).1).2.2 = Except.ok (some ⟨1, "exit", 1, 7⟩) := by decide

theorem cross_product_reversed (l : Line) (p : Point) :
    cross_product (reversed_line l) p = - cross_product l p := by
  simp only [cross_product, reversed_line]
  ring

/-- Claim C2: `detect_line_crossing` classifies both points by the sign of
the cross product of the line's direction vector with the vector from the
line's first endpoint to the point; it returns `None` when the two signs are
equal or either is exactly zero, `"OUT"` when the previous point is on the
left (positive cross product) and the current on the right (negative), and
`"IN"` when the previous point is on the right and the current on the left. -/
theorem detect_line_crossing_sign_classification :
    ∀ (prev curr : Point) (line : Line),
      (((0 < cross_product line prev ∧ 0 < cross_product line curr)
          ∨ (cross_product line prev < 0 ∧ cross_product line curr < 0)
          ∨ cross_product line prev = 0 ∨ cross_product line curr = 0) →
        detect_line_crossing prev curr line = none)
      ∧ (0 < cross_product line prev ∧ cross_product line curr < 0 →
        detect_line_crossing prev curr line = some "OUT")
      ∧ (cross_product line prev < 0 ∧ 0 < cross_product line curr →
        detect_line_crossing prev curr line = some "IN") := by
  intro prev curr line
  rw [detect_line_crossing_eq]
  refine ⟨?_, ?_, ?_⟩
  · rintro (⟨h1, h2⟩ | ⟨h1, h2⟩ | h | h)
    · rw [if_pos (le_of_lt (mul_pos h1 h2))]
    · rw [if_pos (le_of_lt (mul_pos_of_neg_of_neg h1 h2))]
    · rw [if_pos (by rw [h, zero_mul])]
    · rw [if_pos (by rw [h, mul_zero])]
  · rintro ⟨h1, h2⟩
    rw [if_neg (not_le.mpr (mul_neg_of_pos_of_neg h1 h2)), if_pos ⟨h1, h2⟩]
  · rintro ⟨h1, h2⟩
    rw [if_neg (not_le.mpr (mul_neg_of_neg_of_pos h1 h2)),
      if_neg (fun hc => absurd h1 (not_lt.mpr hc.1.le)), if_pos ⟨h1, h2⟩]

theorem detect_line_crossing_sign_classification_witness :
    (0 < cross_product ⟨0, 0, 0, 10⟩ ⟨-1, 5⟩
      ∧ cross_product ⟨0, 0, 0, 10⟩ ⟨1, 5⟩ < 0)
    ∧ detect_line_crossing ⟨-1, 5⟩ ⟨1, 5⟩ ⟨0, 0, 0, 10⟩ = some "OUT" :=
  ⟨⟨by decide, by decide⟩,
    (detect_line_crossing_sign_classification ⟨-1, 5⟩ ⟨1, 5⟩ ⟨0, 0, 0, 10⟩).2.1
      ⟨by decide, by decide⟩⟩

/-- Claim C9, counterexample: for the point `(0,0)`, which lies on the line
`{0,0,0,10}`, `get_point_side_of_line` yields `None` (ON_LINE) for both the
line and its reversal, so the two results are not opposite non-ON_LINE
results as the claim asserts for all points. -/
theorem side_of_line_symmetry_counterexample :
    ¬ (get_point_side_of_line ⟨0, 0⟩ ⟨0, 0, 0, 10⟩ ≠ none
       ∧ get_point_side_of_line ⟨0, 0⟩ (reversed_line ⟨0, 0, 0, 10⟩) ≠ none) := by
  decide

/-- Claim C9, amended: for every point P and line L, whenever
`get_point_side_of_line` does not answer ON_LINE, the reversed line yields
the opposite non-ON_LINE side (`"left"` versus `"right"` and vice versa);
a point on the line is ON_LINE for both orientations. -/
theorem side_of_line_symmetry :
    ∀ (p : Point) (l : Line),
      (get_point_side_of_line p l = some "left" →
        get_point_side_of_line p (reversed_line l) = some "right")
      ∧ (get_point_side_of_line p l = some "right" →
        get_point_side_of_line p (reversed_line l) = some "left")
      ∧ (get_point_side_of_line p l = none →
        get_point_side_of_line p (reversed_line l) = none) := by
  intro p l
  rw [get_point_side_of_line_eq, get_point_side_of_line_eq, cross_product_reversed]
  rcases lt_trichotomy (cross_product l p) 0 with h | h | h
  · rw [if_neg (not_lt.mpr h.le), if_pos h, if_pos (neg_pos.mpr h)]
    exact ⟨fun hx => by simp at hx, fun _ => rfl, fun hx => by simp at hx⟩
  · rw [h, neg_zero]
    simp
  · rw [if_pos h, if_neg (not_lt.mpr (neg_nonpos.mpr h.le)),
      if_pos (neg_lt_zero.mpr h)]
    exact ⟨fun _ => rfl, fun hx => by simp at hx, fun hx => by simp at hx⟩

theorem side_of_line_symmetry_witness :
    get_point_side_of_line ⟨-5, 5⟩ ⟨0, 0, 0, 10⟩ = some "left"
    ∧ get_point_side_of_line ⟨-5, 5⟩ (reversed_line ⟨0, 0, 0, 10⟩)
        = some "right" :=
  ⟨by decide, (side_of_line_symmetry ⟨-5, 5⟩ ⟨0, 0, 0, 10⟩).1 (by decide)⟩

theorem cross_product_degenerate {l : Line} (hx : l.x1 = l.x2)
    (hy : l.y1 = l.y2) (p : Point) : cross_product l p = 0 := by
  simp [cross_product, hx, hy]

/-- Claim C8: for a degenerate line with both endpoints equal,
`detect_line_crossing` returns `None` for every pair of points (it is a total
function, so it never raises), and consequently `process_person_centroid`
with such a line never emits, persists, or errors on an event. -/
theorem degenerate_line_never_crosses :
    ∀ (l : Line), l.x1 = l.x2 → l.y1 = l.y2 →
      (∀ p c : Point, detect_line_crossing p c l = none)
      ∧ (∀ (pf : Bool) (cam tid : Int) (x y : Rat) (df : String) (ts : Rat)
          (esp : Option Point) (st : EngineState),
          (process_person_centroid pf cam tid x y l df ts esp st).2.2
            = Except.ok none
          ∧ (process_person_centroid pf cam tid x y l df ts esp st).2.1 = []) := by
  intro l hx hy
  have hdet : ∀ p c : Point, detect_line_crossing p c l = none := by
    intro p c
    rw [detect_line_crossing_eq, cross_product_degenerate hx hy,
      cross_product_degenerate hx hy, if_pos (le_of_eq (zero_mul 0).symm)]
  refine ⟨hdet, ?_⟩
  intro pf cam tid x y df ts esp st
  rcases hstp : st.track_positions tid with _ | prevp
  · constructor <;> simp [process_person_centroid, hstp]
  · constructor <;> simp [process_person_centroid, hstp, hdet]

theorem degenerate_line_never_crosses_witness :
    ((3 : Rat) = 3 ∧ (4 : Rat) = 4)
    ∧ detect_line_crossing ⟨0, 0⟩ ⟨1, 1⟩ ⟨3, 4, 3, 4⟩ = none
    ∧ (process_person_centroid false 1 7 1 1 ⟨3, 4, 3, 4⟩ "both" 0 none
        emptyEngineState).2.2 = Except.ok none :=
  ⟨⟨rfl, rfl⟩,
    (degenerate_line_never_crosses ⟨3, 4, 3, 4⟩ rfl rfl).1 ⟨0, 0⟩ ⟨1, 1⟩,
    ((degenerate_line_never_crosses ⟨3, 4, 3, 4⟩ rfl rfl).2
      false 1 7 1 1 "both" 0 none emptyEngineState).1⟩

/-- Claim C5: on a track's first-ever centroid (no entry in the track
position store), `process_person_centroid` returns `None`, whatever the
camera, coordinates, line, filter, entrance side, timestamp, or persistence
behaviour. -/
theorem first_centroid_returns_none :
    ∀ (pf : Bool) (cam tid : Int) (x y : Rat) (line : Line) (df : String)
      (ts : Rat) (esp : Option Point) (st : EngineState),
      st.track_positions tid = none →
      (process_person_centroid pf cam tid x y line df ts esp st).2.2
        = Except.ok none := by
  intro pf cam tid x y line df ts esp st h
  simp [process_person_centroid, h]

theorem first_centroid_returns_none_witness :
    emptyEngineState.track_positions 7 = none
    ∧ (process_person_centroid false 1 7 (-1) 5 ⟨0, 0, 0, 10⟩ "both" 0 none
        emptyEngineState).2.2 = Except.ok none :=
  ⟨rfl, first_centroid_returns_none false 1 7 (-1) 5 ⟨0, 0, 0, 10⟩ "both" 0 none
    emptyEngineState rfl⟩

theorem process_track_positions_eq (pf : Bool) (cam tid : Int) (x y : Rat)
    (line : Line) (df : String) (ts : Rat) (esp : Option Point)
    (st : EngineState) :
    (process_person_centroid pf cam tid x y line df ts esp st).1.track_positions
      = fun t => if t = tid then some ⟨x, y, ts⟩ else st.track_positions t := by
  simp only [process_person_centroid]
  repeat' split
  all_goals rfl

/-- Claim C6: every call of `process_person_centroid`, whatever its result
(event, `None` on any discard path, or a propagated persistence error),
leaves the track position store mapping `track_id` to the new
`(x, y, timestamp)` and leaves every other track's entry unchanged. -/
theorem process_upserts_position :
    ∀ (pf : Bool) (cam tid : Int) (x y : Rat) (line : Line) (df : String)
      (ts : Rat) (esp : Option Point) (st : EngineState),
      (process_person_centroid pf cam tid x y line df ts esp st).1.track_positions
          tid = some ⟨x, y, ts⟩
      ∧ ∀ t : Int, t ≠ tid →
        (process_person_centroid pf cam tid x y line df ts esp st).1.track_positions
            t = st.track_positions t := by
  intro pf cam tid x y line df ts esp st
  rw [process_track_positions_eq]
  exact ⟨by simp, fun t ht => by simp [ht]⟩

theorem process_upserts_position_witness :
    (process_person_centroid false 1 7 (-1) 5 ⟨0, 0, 0, 10⟩ "both" 0 none
        emptyEngineState).1.track_positions 7 = some ⟨-1, 5, 0⟩
    ∧ ((3 : Int) ≠ 7
      ∧ (process_person_centroid false 1 7 (-1) 5 ⟨0, 0, 0, 10⟩ "both" 0 none
          emptyEngineState).1.track_positions 3 = emptyEngineState.track_positions 3) :=
  ⟨(process_upserts_position false 1 7 (-1) 5 ⟨0, 0, 0, 10⟩ "both" 0 none
      emptyEngineState).1,
   by decide,
   (process_upserts_position false 1 7 (-1) 5 ⟨0, 0, 0, 10⟩ "both" 0 none
      emptyEngineState).2 3 (by decide)⟩

/-- Claim C7: if the persistence collaborator fails while storing an accepted
crossing event, the failure propagates out of `process_person_centroid` as an
error, and the in-memory state (track position store and debounce state) is
exactly the state the successful run would have produced — nothing is rolled
back. -/
theorem persist_failure_propagates :
    ∀ (cam tid : Int) (x y : Rat) (line : Line) (df : String) (ts : Rat)
      (esp : Option Point) (st : EngineState) (ev : ReturnedEvent),
      (process_person_centroid false cam tid x y line df ts esp st).2.2
        = Except.ok (some ev) →
      (process_person_centroid true cam tid x y line df ts esp st).2.2
        = Except.error PersistFailure.dbError
      ∧ (process_person_centroid true cam tid x y line df ts esp st).1
        = (process_person_centroid false cam tid x y line df ts esp st).1 := by
  intro cam tid x y line df ts esp st ev hok
  simp only [process_person_centroid] at hok ⊢
  repeat' split at hok
  all_goals simp_all

theorem persist_failure_propagates_witness :
    (process_person_centroid false 1 7 1 5 ⟨0, 0, 0, 10⟩ "both" 1 none
      (process_person_centroid false 1 7 (-1) 5 ⟨0, 0, 0, 10⟩ "both" 0 none
        emptyEngineState).1).2.2 = Except.ok (some ⟨1, "exit", 1, 7⟩)
    ∧ (process_person_centroid true 1 7 1 5 ⟨0, 0, 0, 10⟩ "both" 1 none
      (process_person_centroid false 1 7 (-1) 5 ⟨0, 0, 0, 10⟩ "both" 0 none
        emptyEngineState).1).2.2 = Except.error PersistFailure.dbError :=
  ⟨by decide,
   (persist_failure_propagates 1 7 1 5 ⟨0, 0, 0, 10⟩ "both" 1 none
      (process_person_centroid false 1 7 (-1) 5 ⟨0, 0, 0, 10⟩ "both" 0 none
        emptyEngineState).1 ⟨1, "exit", 1, 7⟩ (by decide)).1⟩

theorem str_upper_IN : str_upper "IN" = "IN" := by decide

theorem str_upper_OUT : str_upper "OUT" = "OUT" := by decide

/-- Claim C3: with the fixed minimum interval of 3.0, `should_count_crossing`
accepts and stores the state when the track has none, rejects with unchanged
state when called again within 3.0 or with the same direction as the stored
one, and otherwise accepts and overwrites the state; in particular `IN` at
t=0 is accepted, `IN` at t=1 is rejected, and `OUT` at t=4 is accepted. -/
theorem should_count_crossing_spec :
    MIN_CROSS_INTERVAL = 3
    ∧ (∀ (tid : Int) (dir : String) (now : Rat) (ts : TrackStateMap),
      (dir = "IN" ∨ dir = "OUT") →
      ((ts tid = none →
        should_count_crossing tid dir now ts
          = (true, fun t => if t = tid then some ⟨now, dir⟩ else ts t))
      ∧ (∀ s, ts tid = some s →
          now - s.last_cross_time < MIN_CROSS_INTERVAL →
          should_count_crossing tid dir now ts = (false, ts))
      ∧ (∀ s, ts tid = some s →
          ¬ now - s.last_cross_time < MIN_CROSS_INTERVAL →
          dir = s.last_direction →
          should_count_crossing tid dir now ts = (false, ts))
      ∧ (∀ s, ts tid = some s →
          ¬ now - s.last_cross_time < MIN_CROSS_INTERVAL →
          dir ≠ s.last_direction →
          should_count_crossing tid dir now ts
            = (true, fun t => if t = tid then some ⟨now, dir⟩ else ts t))))
    ∧ ((should_count_crossing 7 "IN" 0 (fun _ => none)).1 = true
      ∧ (should_count_crossing 7 "IN" 1
          (should_count_crossing 7 "IN" 0 (fun _ => none)).2).1 = false
      ∧ (should_count_crossing 7 "OUT" 4
          (should_count_crossing 7 "IN" 1
            (should_count_crossing 7 "IN" 0 (fun _ => none)).2).2).1 = true) := by
  refine ⟨rfl, ?_, by decide, by decide, by decide⟩
  intro tid dir now ts hdir
  have hup : str_upper dir = dir := by
    rcases hdir with rfl | rfl
    · exact str_upper_IN
    · exact str_upper_OUT
  have hvalid : ¬ ¬ (dir = "IN" ∨ dir = "OUT") := not_not_intro hdir
  refine ⟨?_, ?_, ?_, ?_⟩
  · intro h
    simp only [should_count_crossing, hup]
    rw [if_neg hvalid, h]
  · intro s hs hlt
    simp only [should_count_crossing, hup]
    rw [if_neg hvalid, hs]
    exact if_pos hlt
  · intro s hs hlt heq
    simp only [should_count_crossing, hup]
    rw [if_neg hvalid]
    simp only [hs]
    rw [if_neg hlt]
    exact if_pos heq
  · intro s hs hlt hne
    simp only [should_count_crossing, hup]
    rw [if_neg hvalid]
    simp only [hs]
    rw [if_neg hlt]
    exact if_neg hne

theorem should_count_crossing_spec_witness :
    ("OUT" = "IN" ∨ "OUT" = "OUT")
    ∧ ((fun _ : Int => (none : Option TrackState)) 3 = none)
    ∧ should_count_crossing 3 "OUT" 0 (fun _ => none)
        = (true, fun t => if t = 3 then some ⟨0, "OUT"⟩ else none) :=
  ⟨Or.inr rfl, rfl,
    (should_count_crossing_spec.2.1 3 "OUT" 0 (fun _ => none) (Or.inr rfl)).1 rfl⟩

/-- Claim C1, counterexample: in the §8 scenario — line `{0,0,0,10}`, track 7
first at `(-1,5)` and then at `(1,5)`, no entrance side, filter `"both"` —
the second call does NOT return an `"enter"` event: moving from negative-x to
positive-x over the upward-directed vertical line is a left-to-right
crossing, which the code classifies `"OUT"` and labels `"exit"`. -/
theorem concrete_scenario_not_enter :
    ¬ ∃ ev : ReturnedEvent,
      (process_person_centroid false 1 7 1 5 ⟨0, 0, 0, 10⟩ "both" 1 none
        (process_person_centroid false 1 7 (-1) 5 ⟨0, 0, 0, 10⟩ "both" 0 none
          emptyEngineState).1).2.2 = Except.ok (some ev)
      ∧ ev.event = "enter" := by
  rintro ⟨ev, hev, hevt⟩
  have h : (process_person_centroid false 1 7 1 5 ⟨0, 0, 0, 10⟩ "both" 1 none
      (process_person_centroid false 1 7 (-1) 5 ⟨0, 0, 0, 10⟩ "both" 0 none
        emptyEngineState).1).2.2 = Except.ok (some ⟨1, "exit", 1, 7⟩) := by decide
  rw [h] at hev
  simp only [Except.ok.injEq, Option.some.injEq] at hev
  subst hev
  exact absurd hevt (by decide)

/-- Claim C1, amended: in the §8 scenario the second call yields the event
`{camera_id: 1, event: "exit", timestamp: 1, track_id: 7}` — moving from
negative-x to positive-x across the line directed from `(0,0)` to `(0,10)`
is classified OUT and labelled `"exit"`. -/
theorem concrete_scenario_exit_event :
    (process_person_centroid false 1 7 1 5 ⟨0, 0, 0, 10⟩ "both" 1 none
      (process_person_centroid false 1 7 (-1) 5 ⟨0, 0, 0, 10⟩ "both" 0 none
        emptyEngineState).1).2.2 = Except.ok (some ⟨1, "exit", 1, 7⟩) := by
  decide

/-- Claim C4: with an entrance side configured and a crossing detected, the
event is labelled `"enter"` exactly when the previous point's side of the
line equals the entrance-side reference point's side, `"exit"` when the two
sides differ, and when either side classification is ON_LINE the label falls
back to the geometric rule (IN is `"enter"`, OUT is `"exit"`); concretely,
the §8 crossing with entrance side `(-5,5)` produces an `"enter"` event and
with `(5,5)` an `"exit"` event. -/
theorem entrance_side_labeling :
    (∀ (cam tid : Int) (x y : Rat) (line : Line) (df : String) (ts : Rat)
      (e : Point) (st : EngineState) (prev : TrackPosition) (ps es : String)
      (ev : ReturnedEvent),
      st.track_positions tid = some prev →
      get_point_side_of_line ⟨prev.x, prev.y⟩ line = some ps →
      get_point_side_of_line e line = some es →
      (process_person_centroid false cam tid x y line df ts (some e) st).2.2
        = Except.ok (some ev) →
      ev.event = if ps = es then "enter" else "exit")
    ∧ (∀ (cam tid : Int) (x y : Rat) (line : Line) (df : String) (ts : Rat)
      (e : Point) (st : EngineState) (prev : TrackPosition) (dir : String)
      (ev : ReturnedEvent),
      st.track_positions tid = some prev →
      (get_point_side_of_line ⟨prev.x, prev.y⟩ line = none
        ∨ get_point_side_of_line e line = none) →
      detect_line_crossing ⟨prev.x, prev.y⟩ ⟨x, y⟩ line = some dir →
      (process_person_centroid false cam tid x y line df ts (some e) st).2.2
        = Except.ok (some ev) →
      ev.event = if dir = "IN" then "enter" else "exit")
    ∧ (process_person_centroid false 1 7 1 5 ⟨0, 0, 0, 10⟩ "both" 1
        (some ⟨-5, 5⟩)
        (process_person_centroid false 1 7 (-1) 5 ⟨0, 0, 0, 10⟩ "both" 0
          (some ⟨-5, 5⟩) emptyEngineState).1).2.2
      = Except.ok (some ⟨1, "enter", 1, 7⟩)
    ∧ (process_person_centroid false 1 7 1 5 ⟨0, 0, 0, 10⟩ "both" 1
        (some ⟨5, 5⟩)
        (process_person_centroid false 1 7 (-1) 5 ⟨0, 0, 0, 10⟩ "both" 0
          (some ⟨5, 5⟩) emptyEngineState).1).2.2
      = Except.ok (some ⟨1, "exit", 1, 7⟩) := by
  refine ⟨?_, ?_, by decide, by decide⟩
  · intro cam tid x y line df ts e st prev ps es ev hprev hps hes hok
    simp only [process_person_centroid, hprev] at hok
    rcases hdet : detect_line_crossing ⟨prev.x, prev.y⟩ ⟨x, y⟩ line with _ | dir
    · simp only [hdet] at hok
      simp at hok
    · simp only [hdet, hps, hes] at hok
      by_cases h1 : df = "in" ∧ (if ps = es then "enter" else "exit") ≠ "enter"
      · rw [if_pos h1] at hok
        simp at hok
      · rw [if_neg h1] at hok
        by_cases h2 : df = "out" ∧ (if ps = es then "enter" else "exit") ≠ "exit"
        · rw [if_pos h2] at hok
          simp at hok
        · rw [if_neg h2] at hok
          by_cases h3 : (should_count_crossing tid dir ts st.track_state).1 = true
          · rw [if_neg (not_not_intro h3)] at hok
            simp at hok
            subst hok
            rfl
          · rw [if_pos h3] at hok
            simp at hok
  · intro cam tid x y line df ts e st prev dir ev hprev hside hdet hok
    simp only [process_person_centroid, hprev, hdet] at hok
    have hred : ∀ os1 os2 : Option String,
        os1 = get_point_side_of_line ⟨prev.x, prev.y⟩ line →
        os2 = get_point_side_of_line e line →
        (os1 = none ∨ os2 = none) →
        (match os1, os2 with
          | some ps, some es =>
            if ps = es then "enter" else "exit"
          | _, _ => if dir = "IN" then "enter" else "exit")
          = if dir = "IN" then "enter" else "exit" := by
      rintro os1 os2 _ _ (rfl | h)
      · rfl
      · rcases os1 with _ | ps
        · rfl
        · rw [h]
    rw [hred (get_point_side_of_line ⟨prev.x, prev.y⟩ line)
      (get_point_side_of_line e line) rfl rfl hside] at hok
    by_cases h1 : df = "in" ∧ (if dir = "IN" then "enter" else "exit") ≠ "enter"
    · rw [if_pos h1] at hok
      simp at hok
    · rw [if_neg h1] at hok
      by_cases h2 : df = "out" ∧ (if dir = "IN" then "enter" else "exit") ≠ "exit"
      · rw [if_pos h2] at hok
        simp at hok
      · rw [if_neg h2] at hok
        by_cases h3 : (should_count_crossing tid dir ts st.track_state).1 = true
        · rw [if_neg (not_not_intro h3)] at hok
          simp at hok
          subst hok
          rfl
        · rw [if_pos h3] at hok
          simp at hok

theorem process_ok_some_shape (cam tid : Int) (x y : Rat) (line : Line)
    (df : String) (ts : Rat) (esp : Option Point) (st st2 : EngineState)
    (evs : List PersistedEvent) (ev : ReturnedEvent) :
    process_person_centroid false cam tid x y line df ts esp st
      = (st2, evs, Except.ok (some ev)) →
    evs = [⟨cam, ev.event, ts, tid⟩] ∧ ev.timestamp = py_int ts := by
  intro hok
  simp only [process_person_centroid] at hok
  repeat' split at hok
  all_goals simp only [Prod.mk.injEq] at hok
  all_goals obtain ⟨h1, h2, h3⟩ := hok
  all_goals first
    | (subst h2
       simp only [Except.ok.injEq, Option.some.injEq] at h3
       subst h3
       exact ⟨rfl, rfl⟩)
    | simp at h3

theorem py_int_cast_ne_of_den_ne_one (q : Rat) (hden : q.den ≠ 1) :
    ((py_int q : Int) : Rat) ≠ q := by
  intro heq
  exact hden (by rw [← heq, Rat.den_intCast])

/-- Claim C10: when a crossing is accepted, the record handed to the
persistence collaborator carries the full-precision timestamp
(`datetime.fromtimestamp(timestamp)`), while the event returned to the
caller carries `int(timestamp)`; hence whenever the timestamp has a
fractional part the returned event's timestamp (its truncation) differs
from the persisted one. -/
theorem persisted_vs_returned_timestamp :
    ∀ (cam tid : Int) (x y : Rat) (line : Line) (df : String) (ts : Rat)
      (esp : Option Point) (st st2 : EngineState) (evs : List PersistedEvent)
      (ev : ReturnedEvent),
      process_person_centroid false cam tid x y line df ts esp st
        = (st2, evs, Except.ok (some ev)) →
      evs = [⟨cam, ev.event, ts, tid⟩]
      ∧ ev.timestamp = py_int ts
      ∧ (ts.den ≠ 1 → (ev.timestamp : Rat) ≠ ts) := by
  intro cam tid x y line df ts esp st st2 evs ev hok
  obtain ⟨h1, h2⟩ := process_ok_some_shape cam tid x y line df ts esp st st2
    evs ev hok
  refine ⟨h1, h2, fun hden => ?_⟩
  rw [h2]
  exact py_int_cast_ne_of_den_ne_one ts hden

theorem persisted_vs_returned_timestamp_witness :
    ((3 / 2 : Rat).den ≠ 1
      ∧ (process_person_centroid false 1 7 1 5 ⟨0, 0, 0, 10⟩ "both" (3 / 2)
          none
          (process_person_centroid false 1 7 (-1) 5 ⟨0, 0, 0, 10⟩ "both" 0
            none emptyEngineState).1).2.1 = [⟨1, "exit", 3 / 2, 7⟩])
    ∧ ((1 : Int) : Rat) ≠ 3 / 2 := by
  have h : (process_person_centroid false 1 7 1 5 ⟨0, 0, 0, 10⟩ "both" (3 / 2)
      none
      (process_person_centroid false 1 7 (-1) 5 ⟨0, 0, 0, 10⟩ "both" 0
        none emptyEngineState).1).2.2
      = Except.ok (some ⟨1, "exit", 1, 7⟩) := by decide
  have key := persisted_vs_returned_timestamp 1 7 1 5 ⟨0, 0, 0, 10⟩ "both"
    (3 / 2) none
    (process_person_centroid false 1 7 (-1) 5 ⟨0, 0, 0, 10⟩ "both" 0
      none emptyEngineState).1
    (process_person_centroid false 1 7 1 5 ⟨0, 0, 0, 10⟩ "both" (3 / 2)
      none
      (process_person_centroid false 1 7 (-1) 5 ⟨0, 0, 0, 10⟩ "both" 0
        none emptyEngineState).1).1
    (process_person_centroid false 1 7 1 5 ⟨0, 0, 0, 10⟩ "both" (3 / 2)
      none
      (process_person_centroid false 1 7 (-1) 5 ⟨0, 0, 0, 10⟩ "both" 0
        none emptyEngineState).1).2.1
    ⟨1, "exit", 1, 7⟩ (by rw [← h])
  exact ⟨⟨by decide, key.1⟩, key.2.2 (by decide)⟩

theorem entrance_side_labeling_witness :
    ((process_person_centroid false 1 7 (-1) 5 ⟨0, 0, 0, 10⟩ "both" 0
        (some ⟨-5, 5⟩) emptyEngineState).1.track_positions 7 = some ⟨-1, 5, 0⟩
      ∧ get_point_side_of_line ⟨-1, 5⟩ ⟨0, 0, 0, 10⟩ = some "left"
      ∧ get_point_side_of_line ⟨-5, 5⟩ ⟨0, 0, 0, 10⟩ = some "left")
    ∧ ("enter" : String)
        = if ("left" : String) = "left" then "enter" else "exit" :=
  ⟨⟨by decide, by decide, by decide⟩, by
    have h := entrance_side_labeling.1 1 7 1 5 ⟨0, 0, 0, 10⟩ "both" 1 ⟨-5, 5⟩
      (process_person_centroid false 1 7 (-1) 5 ⟨0, 0, 0, 10⟩ "both" 0
        (some ⟨-5, 5⟩) emptyEngineState).1 ⟨-1, 5, 0⟩ "left" "left"
      ⟨1, "enter", 1, 7⟩ (by decide) (by decide) (by decide) (by decide)
    exact h⟩

end Atriva
